import Mathlib

/-!
Shallow embedding of the `FT232` class from `qft2xx.cpp` / `qft2xx.h`
(a Qt wrapper around the FTDI D2XX driver).

Modelling conventions:
* The mutable members of the `FT232` object that the verified claims touch
  are gathered in the structure `FTState`; bytes are `Nat`, the
  `QByteArray FTDIreadBuffer` is a `List Nat`, and the `QSemaphore sem`
  is its available-token counter (a `Nat`).
* Driver calls (`FT_...`) are external: each member function takes the
  values the driver would return (status codes, modem-status words,
  queued bytes) as explicit arguments, and records the hardware calls it
  issues and the Qt signals it emits as an ordered `List Effect`.
* `FT_STATUS`, `DWORD` and the flag enums are `Nat`; the `qint32 → uint32_t`
  store in `setBaudRate` is `% 2 ^ 32`.
-/

namespace FT232

/-- `FT_OK` status code from `ftd2xx.h`. -/
def FT_OK : Nat := 0

/-- `FT_IO_ERROR` status code from `ftd2xx.h`. -/
def FT_IO_ERROR : Nat := 4

/-- `FT_EVENT_RXCHAR` event bit from `ftd2xx.h`. -/
def FT_EVENT_RXCHAR : Nat := 1

/-- `FT_EVENT_MODEM_STATUS` event bit from `ftd2xx.h`. -/
def FT_EVENT_MODEM_STATUS : Nat := 2

/-- `PortError` flag values from `qft2xx.h`. -/
def NoError : Nat := 0x00

def NotOpenError : Nat := 0x01

def OverrunError : Nat := 0x02

def ParityError : Nat := 0x04

def FramingError : Nat := 0x10

def BreakConditionError : Nat := 0x20

def FIFOError : Nat := 0x40

def ReadError : Nat := 0x80

/-- `FT_BITS_8` from `ftd2xx.h`. -/
def FT_BITS_8 : Nat := 8

def FT_STOP_BITS_1 : Nat := 0

def FT_STOP_BITS_2 : Nat := 2

def FT_PARITY_NONE : Nat := 0

def FT_PARITY_ODD : Nat := 1

def FT_PARITY_EVEN : Nat := 2

def FT_PARITY_MARK : Nat := 3

def FT_PARITY_SPACE : Nat := 4

def FT_FLOW_NONE : Nat := 0x0000

def FT_FLOW_RTS_CTS : Nat := 0x0100

def FT_FLOW_DTR_DSR : Nat := 0x0200

def FT_FLOW_XON_XOFF : Nat := 0x0400

/-- Range of the `uint32_t FTDIbaudRate` member. -/
def UINT32_MOD : Nat := 2 ^ 32

/-- `enum LineProperty` from `qft2xx.h`. -/
inductive LineProperty where
  | SERIAL_8N1 | SERIAL_8N2 | SERIAL_8E1 | SERIAL_8E2
  | SERIAL_8O1 | SERIAL_8O2 | SERIAL_8M1 | SERIAL_8M2
  | SERIAL_8S1 | SERIAL_8S2
  deriving DecidableEq, Repr

/-- `enum FlowControl` from `qft2xx.h`. -/
inductive FlowControl where
  | NoFlowControl | HardwareControl | SoftwareControl | DTR_DSR_FlowControl
  deriving DecidableEq, Repr

/-- Observable actions of a member function, in program order: hardware
driver calls (`hw...`, the `FT_...` functions of `ftd2xx.h`) and emitted
Qt signals (`emit...`). -/
inductive Effect where
  | hwCreateDeviceInfoList
  | hwGetDeviceInfoList
  | hwOpenDevice
  | hwClose
  | hwPurgeRxTx
  | hwSetBaudRate (baud : Nat)
  | hwSetLatencyTimer (latency : Nat)
  | hwSetTimeouts (readMs writeMs : Nat)
  | hwEeRead
  | hwGetLibraryVersion
  | hwSetEventMask
  | hwSetDataCharacteristics (bits sbit parity : Nat)
  | hwSetFlowControl (flowctrl xon xoff : Nat)
  | hwSetDtr
  | hwClrDtr
  | hwSetRts
  | hwClrRts
  | hwGetStatus
  | hwGetModemStatus
  | hwGetQueueStatus
  | hwRead (count : Nat)
  | hwWrite (count : Nat)
  | emitErrorOccurred
  | emitReadyRead
  | emitAboutToClose
  | emitConnected
  | emitBaudRateChanged (baud : Nat)
  | emitLinePropertyChanged (line : LineProperty)
  | emitFlowControlChanged (flow : FlowControl)
  | emitDtrChanged (v : Bool)
  | emitRtsChanged (v : Bool)
  deriving DecidableEq, Repr

/-- The mutable members of an `FT232` object that the claims observe.
`isOpen` is the `QIODevice` open state (`openMode != NotOpen`). -/
structure FTState where
  isOpen : Bool
  errFlag : Nat
  FTDIreadBuffer : List Nat
  sem : Nat
  FTDIbaudRate : Nat
  FTDIlineProperty : LineProperty
  FTDIflowControl : FlowControl
  FTDIdtr : Bool
  FTDIrts : Bool
  deriving DecidableEq, Repr

/-- Member defaults from `qft2xx.h`: the object starts closed with
`FTDIbaudRate = 115200`.  (`errFlag` and the remaining members are not
initialised by the source; the values below are a concrete choice and
no theorem depends on them except through explicit hypotheses.) -/
def initState : FTState :=
  { isOpen := false
    errFlag := NoError
    FTDIreadBuffer := []
    sem := 0
    FTDIbaudRate := 115200
    FTDIlineProperty := LineProperty.SERIAL_8N1
    FTDIflowControl := FlowControl.NoFlowControl
    FTDIdtr := false
    FTDIrts := false }

/-- `FT232::close()`: closes the FTDI handle under the mutex,
sets the open mode to `NotOpen` and emits `aboutToClose`. -/
def close (s : FTState) : FTState × List Effect :=
  ({ s with isOpen := false }, [Effect.hwClose, Effect.emitAboutToClose])

/-- `FT232::readData(data, maxSize)`: `n = min(maxSize, FTDIreadBuffer.size())`;
returns 0 at once when `n = 0`; otherwise `sem.tryAcquire(n)` (non-blocking:
fails, leaving everything untouched, when fewer than `n` tokens are
available), then copies the first `n` bytes out and removes them from the
front of the buffer.  Result: (bytes copied to the caller, return value,
state after). -/
def readData (s : FTState) (maxSize : Nat) : List Nat × Nat × FTState :=
  let n := min maxSize s.FTDIreadBuffer.length
  if n = 0 then ([], 0, s)
  else if s.sem < n then ([], 0, s)
  else (s.FTDIreadBuffer.take n, n,
        { s with FTDIreadBuffer := s.FTDIreadBuffer.drop n
                 sem := s.sem - n })

/-- `FT232::on_FTDIreceive()`: drains the driver's receive queue.
`bytesAvailable` is what `FT_GetQueueStatus` reported, `readRet` the
status of the `FT_Read` call and `chunk` the bytes it returned
(`bytesReturned = chunk.length`).  When bytes were drained successfully
they are appended to the back of `FTDIreadBuffer` and `sem` is released
by the chunk size. -/
def on_FTDIreceive (s : FTState) (bytesAvailable readRet : Nat)
    (chunk : List Nat) : FTState × List Effect :=
  if bytesAvailable = 0 then (s, [Effect.hwGetQueueStatus])
  else if readRet = FT_IO_ERROR then
    ({ s with errFlag := if s.isOpen then ReadError else NotOpenError },
     [Effect.hwGetQueueStatus, Effect.hwRead bytesAvailable,
      Effect.emitErrorOccurred])
  else if readRet ≠ FT_OK then
    ({ s with errFlag := if s.isOpen then ReadError else NotOpenError },
     [Effect.hwGetQueueStatus, Effect.hwRead bytesAvailable,
      Effect.emitErrorOccurred])
  else
    ({ s with FTDIreadBuffer := s.FTDIreadBuffer ++ chunk
              sem := s.sem + chunk.length },
     [Effect.hwGetQueueStatus, Effect.hwRead bytesAvailable,
      Effect.emitReadyRead])

/-- A sequence of successful drain events: each chunk `c` is delivered by
`on_FTDIreceive` with `FT_GetQueueStatus` reporting `c.length` bytes and
`FT_Read` returning `FT_OK` with exactly those bytes. -/
def drainAll (s : FTState) (chunks : List (List Nat)) : FTState :=
  chunks.foldl (fun st c => (on_FTDIreceive st c.length FT_OK c).1) s

/-- The "serious error" mask `0b1000111000000000` tested by
`FT232::on_FTDImodemError` (bits 15, 11, 10, 9: RCVR-FIFO, framing,
parity, overrun). -/
def seriousMask : Nat := 0b1000111000000000

/-- The `retval` accumulation of `FT232::on_FTDImodemError`: the
`PortErrors` bit set built from the modem-status word. -/
def classifyModemErrors (modemStatus : Nat) : Nat :=
  (((((if modemStatus &&& 0x8000 ≠ 0 then FIFOError else NoError) |||
      (if modemStatus &&& 0x1000 ≠ 0 then BreakConditionError else 0)) |||
      (if modemStatus &&& 0x0800 ≠ 0 then FramingError else 0)) |||
      (if modemStatus &&& 0x0400 ≠ 0 then ParityError else 0)) |||
      (if modemStatus &&& 0x0200 ≠ 0 then OverrunError else 0))

/-- `FT232::on_FTDImodemError()`: reads the modem status under the mutex
(`getRet` is the status of that `FT_GetModemStatus` call, `modemStatus`
the word it returned).  A failed read sets `errFlag` to `NotOpenError`
or `ReadError` and emits `errorOccurred`; a word with a serious-error
bit purges both hardware buffers and returns, leaving the state alone;
otherwise `errFlag` is overwritten with the classified bits and nothing
is emitted. -/
def on_FTDImodemError (s : FTState) (getRet modemStatus : Nat) :
    FTState × List Effect :=
  if getRet ≠ FT_OK then
    ({ s with errFlag := if s.isOpen then ReadError else NotOpenError },
     [Effect.hwGetModemStatus, Effect.emitErrorOccurred])
  else if modemStatus &&& seriousMask ≠ 0 then
    (s, [Effect.hwGetModemStatus, Effect.hwPurgeRxTx])
  else
    ({ s with errFlag := classifyModemErrors modemStatus },
     [Effect.hwGetModemStatus])

/-- `FT232::on_FTDIevent()`: queries the device status with `FT_GetStatus`
(`getStatusRet` its status code, `eventDWord` the event-cause word); on
failure sets `errFlag` to `NotOpenError`/`ReadError`, emits
`errorOccurred` and returns.  Otherwise dispatches on the event bits to
`on_FTDImodemError` or `on_FTDIreceive`, whose driver inputs are passed
through; unknown events are ignored. -/
def on_FTDIevent (s : FTState) (getStatusRet eventDWord : Nat)
    (getModemRet modemStatus : Nat)
    (bytesAvailable readRet : Nat) (chunk : List Nat) :
    FTState × List Effect :=
  if getStatusRet ≠ FT_OK then
    ({ s with errFlag := if s.isOpen then ReadError else NotOpenError },
     [Effect.hwGetStatus, Effect.emitErrorOccurred])
  else if eventDWord &&& FT_EVENT_MODEM_STATUS ≠ 0 then
    let r := on_FTDImodemError s getModemRet modemStatus
    (r.1, Effect.hwGetStatus :: r.2)
  else if eventDWord &&& FT_EVENT_RXCHAR ≠ 0 then
    let r := on_FTDIreceive s bytesAvailable readRet chunk
    (r.1, Effect.hwGetStatus :: r.2)
  else (s, [Effect.hwGetStatus])

/-- `FT232::writeData(data, maxSize)`: issues `FT_Write` under the mutex
(`hwRet` its status code, `_bytesWritten` the count the driver reported,
which the source stores but never uses).  Returns `-1` on failure and
otherwise `return ret;` — the `FT_STATUS` value itself. -/
def writeData (s : FTState) (maxSize hwRet _bytesWritten : Nat) :
    Int × FTState × List Effect :=
  if hwRet ≠ FT_OK then (-1, s, [Effect.hwWrite maxSize])
  else ((hwRet : Int), s, [Effect.hwWrite maxSize])

/-- `FT232::setBaudRate(baud)`: stores the baud into the `uint32_t`
member first; when closed, returns `true` at once with no hardware call;
when open, issues `FT_SetBaudRate` (`hwRet` its status) and on failure
sets the error string, calls `close()` and returns `false`; on success
emits `baudRateChanged`. -/
def setBaudRate (s : FTState) (baud hwRet : Nat) :
    Bool × FTState × List Effect :=
  let s1 := { s with FTDIbaudRate := baud % UINT32_MOD }
  if s1.isOpen = false then (true, s1, [])
  else if hwRet ≠ FT_OK then
    let r := close s1
    (false, r.1, Effect.hwSetBaudRate s1.FTDIbaudRate :: r.2)
  else
    (true, s1,
     [Effect.hwSetBaudRate s1.FTDIbaudRate, Effect.emitBaudRateChanged baud])

/-- The `switch (line)` of `FT232::setLineProperty`: the
`(parity, stop-bit)` pair passed to `FT_SetDataCharacteristics`. -/
def linePropertyParams (line : LineProperty) : Nat × Nat :=
  match line with
  | .SERIAL_8N1 => (FT_PARITY_NONE, FT_STOP_BITS_1)
  | .SERIAL_8N2 => (FT_PARITY_NONE, FT_STOP_BITS_2)
  | .SERIAL_8E1 => (FT_PARITY_EVEN, FT_STOP_BITS_1)
  | .SERIAL_8E2 => (FT_PARITY_EVEN, FT_STOP_BITS_2)
  | .SERIAL_8O1 => (FT_PARITY_ODD, FT_STOP_BITS_1)
  | .SERIAL_8O2 => (FT_PARITY_ODD, FT_STOP_BITS_2)
  | .SERIAL_8M1 => (FT_PARITY_MARK, FT_STOP_BITS_1)
  | .SERIAL_8M2 => (FT_PARITY_MARK, FT_STOP_BITS_2)
  | .SERIAL_8S1 => (FT_PARITY_SPACE, FT_STOP_BITS_1)
  | .SERIAL_8S2 => (FT_PARITY_SPACE, FT_STOP_BITS_2)

/-- `FT232::setLineProperty(line)`: stores `FTDIlineProperty` up front,
then issues `FT_SetDataCharacteristics` unconditionally — the source has
no `isOpen()` guard here.  On failure returns `false`; on success emits
`linePropertyChanged` and returns `true`. -/
def setLineProperty (s : FTState) (line : LineProperty) (hwRet : Nat) :
    Bool × FTState × List Effect :=
  let p := linePropertyParams line
  let s1 := { s with FTDIlineProperty := line }
  let call := Effect.hwSetDataCharacteristics FT_BITS_8 p.2 p.1
  if hwRet ≠ FT_OK then (false, s1, [call])
  else (true, s1, [call, Effect.emitLinePropertyChanged line])

/-- The `switch (flow)` of `FT232::setFlowControl`. -/
def flowControlParam (flow : FlowControl) : Nat :=
  match flow with
  | .NoFlowControl => FT_FLOW_NONE
  | .HardwareControl => FT_FLOW_RTS_CTS
  | .SoftwareControl => FT_FLOW_XON_XOFF
  | .DTR_DSR_FlowControl => FT_FLOW_DTR_DSR

/-- `FT232::setFlowControl(flow)`: issues `FT_SetFlowControl`
unconditionally — the source has no `isOpen()` guard here.  On failure
returns `false`; on success stores `FTDIflowControl`, emits
`flowControlChanged` and returns `true`. -/
def setFlowControl (s : FTState) (flow : FlowControl) (hwRet : Nat) :
    Bool × FTState × List Effect :=
  let call := Effect.hwSetFlowControl (flowControlParam flow) 0x11 0x13
  if hwRet ≠ FT_OK then (false, s, [call])
  else
    (true, { s with FTDIflowControl := flow },
     [call, Effect.emitFlowControlChanged flow])

/-- `FT232::setDataTerminalReady(set)`: returns `false` at once when the
port is not open; otherwise issues `FT_SetDtr`/`FT_ClrDtr`, and on
success stores `FTDIdtr` and emits `dataTerminalReadyChanged`. -/
def setDataTerminalReady (s : FTState) (set : Bool) (hwRet : Nat) :
    Bool × FTState × List Effect :=
  if s.isOpen = false then (false, s, [])
  else
    let call := if set then Effect.hwSetDtr else Effect.hwClrDtr
    if hwRet ≠ FT_OK then (false, s, [call])
    else (true, { s with FTDIdtr := set }, [call, Effect.emitDtrChanged set])

/-- `FT232::setRequestToSend(set)`: returns `false` at once when the
port is not open; otherwise issues `FT_SetRts`/`FT_ClrRts`, and on
success stores `FTDIrts` and emits `requestToSendChanged`. -/
def setRequestToSend (s : FTState) (set : Bool) (hwRet : Nat) :
    Bool × FTState × List Effect :=
  if s.isOpen = false then (false, s, [])
  else
    let call := if set then Effect.hwSetRts else Effect.hwClrRts
    if hwRet ≠ FT_OK then (false, s, [call])
    else (true, { s with FTDIrts := set }, [call, Effect.emitRtsChanged set])

/-- The driver-side outcomes of one `FT232::open` attempt: the status
code of each `FT_...` call it may issue, in source order, and whether
the enumeration found a device whose id matches `usbVID`/`usbPID`. -/
structure OpenDriver where
  createListRet : Nat
  getListRet : Nat
  deviceFound : Bool
  openRet : Nat
  baudRet : Nat
  latencyRet : Nat
  timeoutsRet : Nat
  eeReadRet : Nat
  libVerRet : Nat
  setEventRet : Nat
  deriving DecidableEq, Repr

/-- `FT232::open(mode)`: enumerates, opens the matching device, applies
the stored `FTDIbaudRate`, latency `FTDI_LATENCY = 3` and timeouts
`(5000, 2000)`, reads the EEPROM and library version, purges both
buffers, sets the `QIODevice` open mode, arms event notification and
emits `connected`.  Every failure after `FT_Open` calls `close()` before
returning `false`. -/
def openDevice (s : FTState) (d : OpenDriver) : Bool × FTState × List Effect :=
  if d.createListRet ≠ FT_OK then
    (false, s, [Effect.hwCreateDeviceInfoList])
  else if d.getListRet ≠ FT_OK then
    (false, s, [Effect.hwCreateDeviceInfoList, Effect.hwGetDeviceInfoList])
  else if d.deviceFound = false then
    (false, s, [Effect.hwCreateDeviceInfoList, Effect.hwGetDeviceInfoList])
  else if d.openRet ≠ FT_OK then
    (false, s,
     [Effect.hwCreateDeviceInfoList, Effect.hwGetDeviceInfoList,
      Effect.hwOpenDevice])
  else if d.baudRet ≠ FT_OK then
    let r := close s
    (false, r.1,
     [Effect.hwCreateDeviceInfoList, Effect.hwGetDeviceInfoList,
      Effect.hwOpenDevice, Effect.hwSetBaudRate s.FTDIbaudRate] ++ r.2)
  else if d.latencyRet ≠ FT_OK then
    let r := close s
    (false, r.1,
     [Effect.hwCreateDeviceInfoList, Effect.hwGetDeviceInfoList,
      Effect.hwOpenDevice, Effect.hwSetBaudRate s.FTDIbaudRate,
      Effect.hwSetLatencyTimer 3] ++ r.2)
  else if d.timeoutsRet ≠ FT_OK then
    let r := close s
    (false, r.1,
     [Effect.hwCreateDeviceInfoList, Effect.hwGetDeviceInfoList,
      Effect.hwOpenDevice, Effect.hwSetBaudRate s.FTDIbaudRate,
      Effect.hwSetLatencyTimer 3, Effect.hwSetTimeouts 5000 2000] ++ r.2)
  else if d.eeReadRet ≠ FT_OK then
    let r := close s
    (false, r.1,
     [Effect.hwCreateDeviceInfoList, Effect.hwGetDeviceInfoList,
      Effect.hwOpenDevice, Effect.hwSetBaudRate s.FTDIbaudRate,
      Effect.hwSetLatencyTimer 3, Effect.hwSetTimeouts 5000 2000,
      Effect.hwEeRead] ++ r.2)
  else if d.libVerRet ≠ FT_OK then
    let r := close s
    (false, r.1,
     [Effect.hwCreateDeviceInfoList, Effect.hwGetDeviceInfoList,
      Effect.hwOpenDevice, Effect.hwSetBaudRate s.FTDIbaudRate,
      Effect.hwSetLatencyTimer 3, Effect.hwSetTimeouts 5000 2000,
      Effect.hwEeRead, Effect.hwGetLibraryVersion] ++ r.2)
  else if d.setEventRet ≠ FT_OK then
    let r := close { s with isOpen := true }
    (false, r.1,
     [Effect.hwCreateDeviceInfoList, Effect.hwGetDeviceInfoList,
      Effect.hwOpenDevice, Effect.hwSetBaudRate s.FTDIbaudRate,
      Effect.hwSetLatencyTimer 3, Effect.hwSetTimeouts 5000 2000,
      Effect.hwEeRead, Effect.hwGetLibraryVersion, Effect.hwPurgeRxTx,
      Effect.hwSetEventMask] ++ r.2)
  else
    (true, { s with isOpen := true },
     [Effect.hwCreateDeviceInfoList, Effect.hwGetDeviceInfoList,
      Effect.hwOpenDevice, Effect.hwSetBaudRate s.FTDIbaudRate,
      Effect.hwSetLatencyTimer 3, Effect.hwSetTimeouts 5000 2000,
      Effect.hwEeRead, Effect.hwGetLibraryVersion, Effect.hwPurgeRxTx,
      Effect.hwSetEventMask, Effect.emitConnected])

/-! ## Helper lemmas -/

/-- A successful drain of chunk `c` appends `c` to the back of the read
buffer and releases `c.length` semaphore tokens; nothing else changes. -/
theorem on_FTDIreceive_ok (s : FTState) (c : List Nat) :
    (on_FTDIreceive s c.length FT_OK c).1 =
      { s with FTDIreadBuffer := s.FTDIreadBuffer ++ c
               sem := s.sem + c.length } := by
  cases c with
  | nil => simp [on_FTDIreceive]
  | cons a t => simp [on_FTDIreceive, FT_OK, FT_IO_ERROR]

/-- A sequence of successful drains appends the concatenation of the
chunks and releases the total byte count. -/
theorem drainAll_spec (chunks : List (List Nat)) (s : FTState) :
    drainAll s chunks =
      { s with FTDIreadBuffer := s.FTDIreadBuffer ++ chunks.flatten
               sem := s.sem + chunks.flatten.length } := by
  induction chunks generalizing s with
  | nil => simp [drainAll]
  | cons c t ih =>
      have h : drainAll s (c :: t) =
          drainAll ((on_FTDIreceive s c.length FT_OK c).1) t := rfl
      rw [h, on_FTDIreceive_ok, ih]
      simp [List.append_assoc, Nat.add_assoc]

/-- A mask that is contained in `mask` is also cleared whenever
`x &&& mask = 0`. -/
theorem submask_and_zero (x mask sub : Nat) (hsub : mask &&& sub = sub)
    (h : x &&& mask = 0) : x &&& sub = 0 := by
  calc x &&& sub = x &&& (mask &&& sub) := by rw [hsub]
    _ = x &&& mask &&& sub := (Nat.land_assoc x mask sub).symm
    _ = 0 &&& sub := by rw [h]
    _ = 0 := by simp

/-! ## Claim theorems -/

/-- C1: for every sequence of successful drain events appending chunks
C1..Cn to the receive buffer (starting from an empty buffer with no
available tokens), a subsequent `readData` requesting at least
`sum |Ci|` bytes returns exactly the concatenation C1‖...‖Cn, in order:
`on_FTDIreceive` appends to the back and `readData` copies and removes
from the front. -/
theorem readData_after_drains_fifo (s : FTState) (chunks : List (List Nat))
    (m : Nat) (hbuf : s.FTDIreadBuffer = []) (hsem : s.sem = 0)
    (hm : chunks.flatten.length ≤ m) :
    (readData (drainAll s chunks) m).1 = chunks.flatten ∧
    (readData (drainAll s chunks) m).2.1 = chunks.flatten.length := by
  rw [drainAll_spec]
  generalize hL : chunks.flatten = L at hm ⊢
  simp only [readData, hbuf, hsem, List.nil_append, Nat.zero_add]
  rw [Nat.min_eq_right hm]
  cases L with
  | nil => simp
  | cons a t =>
      rw [if_neg (by simp), if_neg (Nat.lt_irrefl _)]
      exact ⟨List.take_length _, rfl⟩

/-- Witness for C1 at chunks `[[1,2],[3],[4,5,6]]` and a read of 6. -/
theorem readData_after_drains_fifo_witness :
    initState.FTDIreadBuffer = [] ∧ initState.sem = 0 ∧
    ([[1, 2], [3], [4, 5, 6]] : List (List Nat)).flatten.length ≤ 6 ∧
    (readData (drainAll initState [[1, 2], [3], [4, 5, 6]]) 6).1 =
      [1, 2, 3, 4, 5, 6] := by
  refine ⟨rfl, rfl, by decide, ?_⟩
  have h := readData_after_drains_fifo initState [[1, 2], [3], [4, 5, 6]] 6
    rfl rfl (by decide)
  simpa using h.1

/-- C2: `readData` with `maxSize = 0` returns 0 for every state, and
`readData` with any `maxSize` on an empty buffer returns 0; in both
cases the state — buffer and semaphore counter included — is returned
unchanged, with no blocking (`tryAcquire` is never even reached because
`n = 0` short-circuits). -/
theorem readData_never_blocks (s t : FTState) (k : Nat)
    (h : t.FTDIreadBuffer = []) :
    readData s 0 = ([], 0, s) ∧ readData t k = ([], 0, t) := by
  constructor <;> simp [readData, h]

/-- Witness for C2: a state holding bytes read with `maxSize = 0`, and
the initial (empty-buffer) state read with `maxSize = 5`. -/
theorem readData_never_blocks_witness :
    initState.FTDIreadBuffer = [] ∧
    readData { initState with FTDIreadBuffer := [7, 8], sem := 2 } 0 =
      ([], 0, { initState with FTDIreadBuffer := [7, 8], sem := 2 }) ∧
    readData initState 5 = ([], 0, initState) := by
  have h := readData_never_blocks
    { initState with FTDIreadBuffer := [7, 8], sem := 2 } initState 5 rfl
  exact ⟨rfl, h.1, h.2⟩

/-- C9: `close` is idempotent — a second `close` immediately after the
first returns the same state (open mode, error flags, buffers and
configuration all unchanged) and performs the same effects (close the
handle, emit `aboutToClose`; no error is produced). -/
theorem close_idempotent (s : FTState) : close (close s).1 = close s := rfl

/-- C3: whenever the modem-status word has at least one serious-error
bit (overrun, parity, framing or RCVR-FIFO) set, `on_FTDImodemError`
purges both hardware buffers and returns with the state — `errFlag`
included — untouched and no `errorOccurred` emitted. -/
theorem modemError_serious_purges_silently (s : FTState) (status : Nat)
    (h : status &&& seriousMask ≠ 0) :
    on_FTDImodemError s FT_OK status =
      (s, [Effect.hwGetModemStatus, Effect.hwPurgeRxTx]) := by
  simp [on_FTDImodemError, h]

/-- Witness for C3: injecting `0b1000_0000_0000_0000` (FIFO error) into
a state whose `errFlag` is `NoError` triggers the purge and `error()`
still reports none. -/
theorem modemError_serious_purges_silently_witness :
    (0b1000000000000000 &&& seriousMask ≠ 0) ∧
    on_FTDImodemError initState FT_OK 0b1000000000000000 =
      (initState, [Effect.hwGetModemStatus, Effect.hwPurgeRxTx]) ∧
    (on_FTDImodemError initState FT_OK 0b1000000000000000).1.errFlag =
      NoError :=
  ⟨by decide,
   modemError_serious_purges_silently initState 0b1000000000000000 (by decide),
   by decide⟩

/-- C4: whenever all serious-error bits are clear and the
break-interrupt bit `0b0001_0000_0000_0000` is set, `on_FTDImodemError`
overwrites `errFlag` with exactly `BreakConditionError` and does not
purge the hardware buffers. -/
theorem modemError_break_sets_flag_no_purge (s : FTState) (status : Nat)
    (hser : status &&& seriousMask = 0) (hbrk : status &&& 0x1000 ≠ 0) :
    on_FTDImodemError s FT_OK status =
      ({ s with errFlag := BreakConditionError },
       [Effect.hwGetModemStatus]) := by
  have h15 : status &&& 0x8000 = 0 :=
    submask_and_zero status seriousMask 0x8000 (by decide) hser
  have h11 : status &&& 0x0800 = 0 :=
    submask_and_zero status seriousMask 0x0800 (by decide) hser
  have h10 : status &&& 0x0400 = 0 :=
    submask_and_zero status seriousMask 0x0400 (by decide) hser
  have h9 : status &&& 0x0200 = 0 :=
    submask_and_zero status seriousMask 0x0200 (by decide) hser
  simp [on_FTDImodemError, classifyModemErrors, hser, hbrk, h15, h11, h10, h9,
    NoError, BreakConditionError]

/-- Witness for C4 at status word `0b0001_0000_0000_0000`. -/
theorem modemError_break_sets_flag_no_purge_witness :
    (0b0001000000000000 &&& seriousMask = 0) ∧
    (0b0001000000000000 &&& 0x1000 ≠ 0) ∧
    on_FTDImodemError initState FT_OK 0b0001000000000000 =
      ({ initState with errFlag := BreakConditionError },
       [Effect.hwGetModemStatus]) :=
  ⟨by decide, by decide,
   modemError_break_sets_flag_no_purge initState 0b0001000000000000
     (by decide) (by decide)⟩

/-- C5 (code evaluated at the failing input): on a successful hardware
write of 5 bytes with the driver reporting 5 bytes written, `writeData`
returns `ret` — the `FT_OK` status value 0 — not the reported byte
count 5; on a failed write it returns `-1`. -/
theorem writeData_returns_status_not_count :
    (writeData initState 5 FT_OK 5).1 = 0 ∧
    (writeData initState 5 FT_OK 5).1 ≠ 5 ∧
    (writeData initState 5 4 5).1 = -1 := by decide

/-- C8: whenever the `FT_GetStatus` query in `on_FTDIevent` fails, the
handler sets `errFlag` to exactly `NotOpenError` when closed and
`ReadError` when open, emits `errorOccurred`, and returns without
draining bytes (`FT_Read`) or classifying modem status
(`FT_GetModemStatus`) — its effects are exactly the status query and
the error signal. -/
theorem event_status_failure (s : FTState)
    (ret ev gmr ms avail rr : Nat) (chunk : List Nat) (h : ret ≠ FT_OK) :
    on_FTDIevent s ret ev gmr ms avail rr chunk =
      ({ s with errFlag := if s.isOpen then ReadError else NotOpenError },
       [Effect.hwGetStatus, Effect.emitErrorOccurred]) := by
  simp [on_FTDIevent, h]

/-- Witness for C8: a failed status query (code 4) on an open and on a
closed session. -/
theorem event_status_failure_witness :
    ((4 : Nat) ≠ FT_OK) ∧
    on_FTDIevent { initState with isOpen := true } 4 1 0 0 0 0 [] =
      ({ initState with isOpen := true, errFlag := ReadError },
       [Effect.hwGetStatus, Effect.emitErrorOccurred]) ∧
    on_FTDIevent initState 4 1 0 0 0 0 [] =
      ({ initState with errFlag := NotOpenError },
       [Effect.hwGetStatus, Effect.emitErrorOccurred]) := by
  refine ⟨by decide, ?_, ?_⟩
  · have h := event_status_failure { initState with isOpen := true }
      4 1 0 0 0 0 [] (by decide)
    simpa using h
  · have h := event_status_failure initState 4 1 0 0 0 0 [] (by decide)
    simpa using h

/-- C10: a `setBaudRate` call on an open session whose hardware call
fails stores the new baud first (the hardware call itself carries the
new value), then closes the session (open state becomes closed, the
handle is closed, `aboutToClose` is emitted) and returns `false`. -/
theorem setBaudRate_open_failure_closes (s : FTState) (b hwRet : Nat)
    (hopen : s.isOpen = true) (hb : b < UINT32_MOD) (hret : hwRet ≠ FT_OK) :
    setBaudRate s b hwRet =
      (false, { s with FTDIbaudRate := b, isOpen := false },
       [Effect.hwSetBaudRate b, Effect.hwClose, Effect.emitAboutToClose]) := by
  simp [setBaudRate, close, hopen, hret, Nat.mod_eq_of_lt hb]

/-- Witness for C10: baud 9600 on an open session with a failing
hardware call (code 4). -/
theorem setBaudRate_open_failure_closes_witness :
    ({ initState with isOpen := true } : FTState).isOpen = true ∧
    9600 < UINT32_MOD ∧ ((4 : Nat) ≠ FT_OK) ∧
    setBaudRate { initState with isOpen := true } 9600 4 =
      (false, { initState with FTDIbaudRate := 9600 },
       [Effect.hwSetBaudRate 9600, Effect.hwClose,
        Effect.emitAboutToClose]) := by
  refine ⟨rfl, by decide, by decide, ?_⟩
  have h := setBaudRate_open_failure_closes { initState with isOpen := true }
    9600 4 rfl (by decide) (by decide)
  simpa using h

/-- C6 counterexample: on a closed session, `setLineProperty` does not
fail — with a succeeding hardware call it returns `true` — and it does
issue the hardware `FT_SetDataCharacteristics` call: the source guards
only DTR and RTS with `isOpen()`. -/
theorem setLineProperty_closed_counterexample :
    initState.isOpen = false ∧
    (setLineProperty initState LineProperty.SERIAL_8N1 FT_OK).1 = true ∧
    (setLineProperty initState LineProperty.SERIAL_8N1 FT_OK).2.2 ≠ [] := by
  decide

/-- C6 as amended: while the session is closed, `setDataTerminalReady`
and `setRequestToSend` return `false` without issuing any hardware
driver call, but `setLineProperty` and `setFlowControl` have no open
guard: each issues its hardware call regardless of the open state
(returning that call's success). -/
theorem closed_setters_behaviour (s : FTState) (h : s.isOpen = false)
    (set : Bool) (hwRet : Nat) (line : LineProperty) (flow : FlowControl) :
    setDataTerminalReady s set hwRet = (false, s, []) ∧
    setRequestToSend s set hwRet = (false, s, []) ∧
    (setLineProperty s line hwRet).2.2.head? =
      some (Effect.hwSetDataCharacteristics FT_BITS_8
        (linePropertyParams line).2 (linePropertyParams line).1) ∧
    (setFlowControl s flow hwRet).2.2.head? =
      some (Effect.hwSetFlowControl (flowControlParam flow) 0x11 0x13) := by
  refine ⟨?_, ?_, ?_, ?_⟩
  · simp [setDataTerminalReady, h]
  · simp [setRequestToSend, h]
  · by_cases hr : hwRet ≠ FT_OK <;> simp [setLineProperty, hr]
  · by_cases hr : hwRet ≠ FT_OK <;> simp [setFlowControl, hr]

/-- Witness for the amended C6 on the closed initial state. -/
theorem closed_setters_behaviour_witness :
    initState.isOpen = false ∧
    setDataTerminalReady initState true 0 = (false, initState, []) ∧
    setRequestToSend initState true 0 = (false, initState, []) ∧
    (setLineProperty initState LineProperty.SERIAL_8E1 0).2.2.head? =
      some (Effect.hwSetDataCharacteristics FT_BITS_8 FT_STOP_BITS_1
        FT_PARITY_EVEN) ∧
    (setFlowControl initState FlowControl.HardwareControl 0).2.2.head? =
      some (Effect.hwSetFlowControl FT_FLOW_RTS_CTS 0x11 0x13) := by
  have h := closed_setters_behaviour initState rfl true 0
    LineProperty.SERIAL_8E1 FlowControl.HardwareControl
  exact ⟨rfl, h.1, h.2.1, h.2.2.1, by simpa [flowControlParam] using h.2.2.2⟩

/-- A successful `openDevice` marks the session open and performs the
full source-order sequence of hardware calls, applying the stored
`FTDIbaudRate`. -/
theorem openDevice_success_shape (s : FTState) (d : OpenDriver)
    (h : (openDevice s d).1 = true) :
    openDevice s d =
      (true, { s with isOpen := true },
       [Effect.hwCreateDeviceInfoList, Effect.hwGetDeviceInfoList,
        Effect.hwOpenDevice, Effect.hwSetBaudRate s.FTDIbaudRate,
        Effect.hwSetLatencyTimer 3, Effect.hwSetTimeouts 5000 2000,
        Effect.hwEeRead, Effect.hwGetLibraryVersion, Effect.hwPurgeRxTx,
        Effect.hwSetEventMask, Effect.emitConnected]) := by
  by_cases h1 : d.createListRet = FT_OK
  swap
  · simp [openDevice, h1] at h
  by_cases h2 : d.getListRet = FT_OK
  swap
  · simp [openDevice, h1, h2] at h
  by_cases h3 : d.deviceFound = false
  · simp [openDevice, h1, h2, h3] at h
  by_cases h4 : d.openRet = FT_OK
  swap
  · simp [openDevice, h1, h2, h3, h4] at h
  by_cases h5 : d.baudRet = FT_OK
  swap
  · simp [openDevice, h1, h2, h3, h4, h5] at h
  by_cases h6 : d.latencyRet = FT_OK
  swap
  · simp [openDevice, h1, h2, h3, h4, h5, h6] at h
  by_cases h7 : d.timeoutsRet = FT_OK
  swap
  · simp [openDevice, h1, h2, h3, h4, h5, h6, h7] at h
  by_cases h8 : d.eeReadRet = FT_OK
  swap
  · simp [openDevice, h1, h2, h3, h4, h5, h6, h7, h8] at h
  by_cases h9 : d.libVerRet = FT_OK
  swap
  · simp [openDevice, h1, h2, h3, h4, h5, h6, h7, h8, h9] at h
  by_cases h10 : d.setEventRet = FT_OK
  swap
  · simp [openDevice, h1, h2, h3, h4, h5, h6, h7, h8, h9, h10] at h
  simp [openDevice, h1, h2, h3, h4, h5, h6, h7, h8, h9, h10]

/-- C7: with the session closed, `setBaudRate b` (for any `b` in the
`uint32_t` range) returns `true` with no hardware call and stores `b`
in the configuration record; a subsequent `openDevice` that succeeds
issues the hardware baud call with exactly `b` — not the construction
default 115200. -/
theorem setBaudRate_closed_then_open_applies (s : FTState)
    (b hwRet : Nat) (d : OpenDriver)
    (hclosed : s.isOpen = false) (hb : b < UINT32_MOD) :
    initState.FTDIbaudRate = 115200 ∧
    setBaudRate s b hwRet = (true, { s with FTDIbaudRate := b }, []) ∧
    ((openDevice { s with FTDIbaudRate := b } d).1 = true →
      Effect.hwSetBaudRate b ∈
        (openDevice { s with FTDIbaudRate := b } d).2.2) := by
  refine ⟨rfl, ?_, ?_⟩
  · simp [setBaudRate, hclosed, Nat.mod_eq_of_lt hb]
  · intro hopen
    rw [openDevice_success_shape _ _ hopen]
    simp

/-- Witness for C7: baud 9600 stored while closed, then an open whose
driver calls all succeed applies 9600. -/
theorem setBaudRate_closed_then_open_applies_witness :
    initState.isOpen = false ∧ 9600 < UINT32_MOD ∧
    setBaudRate initState 9600 0 =
      (true, { initState with FTDIbaudRate := 9600 }, []) ∧
    ((openDevice { initState with FTDIbaudRate := 9600 }
        ⟨0, 0, true, 0, 0, 0, 0, 0, 0, 0⟩).1 = true →
      Effect.hwSetBaudRate 9600 ∈
        (openDevice { initState with FTDIbaudRate := 9600 }
          ⟨0, 0, true, 0, 0, 0, 0, 0, 0, 0⟩).2.2) := by
  have h := setBaudRate_closed_then_open_applies initState 9600 0
    ⟨0, 0, true, 0, 0, 0, 0, 0, 0, 0⟩ rfl (by decide)
  exact ⟨rfl, by decide, h.2.1, h.2.2⟩

end FT232
